import Mathlib

/-!
Shallow embedding of the weather-station dashboard's stateful core:
configuration save/load (WeatherConfig.tsx, WeatherCard.tsx/WeatherApp),
the current-conditions fetcher (WeatherDashboard.tsx) and the history
fetcher (WeatherHistory), together with the pure rendering decisions each
component makes from its state.  JS numbers are modelled as ℚ, JS
`Math.round` as floor (x + 1/2), JS `%` as truncating remainder, and JS
array indexing as an Option-valued lookup that is `none` out of bounds.
-/

namespace Weather

/-- JS `Math.round`: round half toward positive infinity. -/
def jsRound (q : ℚ) : ℤ := ⌊q + 1/2⌋

/-- JS `%` on integers: remainder with the sign of the dividend. -/
def jsMod (a b : ℤ) : ℤ := Int.tmod a b

/-- JS array indexing `arr[i]`: `undefined` (here `none`) when the index is
negative or past the end. -/
def jsIndex {α : Type} (l : List α) (i : ℤ) : Option α :=
  if 0 ≤ i then l.get? i.toNat else none

/-- JS `String.prototype.trim`: strip leading and trailing whitespace. -/
def jsTrim (s : String) : String :=
  ⟨((s.data.dropWhile Char.isWhitespace).reverse.dropWhile Char.isWhitespace).reverse⟩

/-- The 16 compass strings of `getWindDirection` (WeatherDashboard.tsx line 150,
identical copy in WeatherHistory line 150). -/
def directions : List String :=
  ["N", "NNE", "NE", "ENE", "E", "ESE", "SE", "SSE",
   "S", "SSW", "SW", "WSW", "W", "WNW", "NW", "NNW"]

/-- The index `Math.round(degrees / 22.5) % 16` computed by `getWindDirection`. -/
def windIndex (degrees : ℚ) : ℤ := jsMod (jsRound (degrees / 22.5)) 16

/-- `getWindDirection` (WeatherDashboard.tsx lines 149-152):
`directions[Math.round(degrees / 22.5) % 16]`. -/
def getWindDirection (degrees : ℚ) : Option String :=
  jsIndex directions (windIndex degrees)

/-! ### Configuration store (WeatherConfig.tsx) -/

/-- `WeatherConfigData` (WeatherConfig.tsx lines 10-14). -/
structure WeatherConfigData where
  apiKey : String
  stationId : String
  rememberMe : Bool
  deriving DecidableEq

/-- The toast emitted by `handleSave`: the two validation failures and the
success confirmation (WeatherConfig.tsx lines 31-47 and 58-62). -/
inductive SaveToast
  | missingApiKey
  | missingStationId
  | configurationSaved
  deriving DecidableEq

/-- Result of one `handleSave` call: the value left under the
`weatherConfig` localStorage key, the configuration passed to
`onConfigSave` (if it was called), and the toast shown. -/
structure SaveResult where
  storage : Option WeatherConfigData
  notified : Option WeatherConfigData
  toast : SaveToast
  deriving DecidableEq

/-- `handleSave` (WeatherConfig.tsx lines 30-63).  `storage` is the
pre-existing persisted value; JSON round-tripping through
`localStorage.setItem(..., JSON.stringify(config))` is modelled as storing
the configuration record itself. -/
def handleSave (config : WeatherConfigData) (storage : Option WeatherConfigData) :
    SaveResult :=
  if jsTrim config.apiKey = "" then
    { storage := storage, notified := none, toast := SaveToast.missingApiKey }
  else if jsTrim config.stationId = "" then
    { storage := storage, notified := none, toast := SaveToast.missingStationId }
  else
    { storage := if config.rememberMe then some config else none
      notified := some config
      toast := SaveToast.configurationSaved }

/-! ### Startup load of the persisted configuration (WeatherApp) -/

/-- The state the `WeatherApp` component holds after its startup effect:
`config`/`showConfig`/`isLoading` state plus the value that remains under
the `weatherConfig` localStorage key. -/
structure AppState where
  config : Option WeatherConfigData
  showConfig : Bool
  isLoading : Bool
  storage : Option String
  deriving DecidableEq

/-- The startup `useEffect` of `WeatherApp`: read `weatherConfig`, parse it
(`jsonParse s = none` models a `JSON.parse` exception), on failure remove
the corrupt record and fall back to the configuration screen. -/
def loadSavedConfig (storage : Option String)
    (jsonParse : String → Option WeatherConfigData) : AppState :=
  match storage with
  | some savedConfig =>
    match jsonParse savedConfig with
    | some parsedConfig =>
        { config := some parsedConfig, showConfig := false, isLoading := false,
          storage := storage }
    | none =>
        { config := none, showConfig := true, isLoading := false, storage := none }
  | none =>
      { config := none, showConfig := true, isLoading := false, storage := none }

/-- What `WeatherApp` renders. -/
inductive AppView
  | loadingScreen
  | configScreen (initial : Option WeatherConfigData)
  | dashboardScreen (config : WeatherConfigData)
  deriving DecidableEq

/-- The render body of `WeatherApp`: loading spinner while `isLoading`,
the configuration screen when `showConfig || !config`, else the dashboard. -/
def renderApp (st : AppState) : AppView :=
  if st.isLoading then AppView.loadingScreen
  else if st.showConfig || st.config.isNone then AppView.configScreen st.config
  else
    match st.config with
    | some c => AppView.dashboardScreen c
    | none => AppView.configScreen none

/-- `handleConfigSave` in `WeatherApp` (WeatherCard.tsx lines 80-83): the
dependent notified by a successful save synchronously updates its
in-memory configuration and leaves the configuration screen. -/
def handleConfigSave (app : AppState) (newConfig : WeatherConfigData) : AppState :=
  { app with config := some newConfig, showConfig := false }

/-! ### HTTP layer shared by both fetchers -/

/-- A decoded HTTP response: status code plus the JSON body, already read
into the shape the component expects. -/
structure HttpResponse (β : Type) where
  status : Nat
  body : β
  deriving DecidableEq

/-- `Response.ok`: status in the range 200-299. -/
def responseOk (status : Nat) : Bool := 200 ≤ status && status ≤ 299

/-- The distinct failure exits of the two fetch functions, one constructor
per `throw new Error(...)` site. -/
inductive ErrorKind
  | invalidCredentials
  | stationNotFound
  | httpError (status : Nat)
  | noData
  deriving DecidableEq

/-- Outcome of the `try` body of a fetch: either the decoded value or the
thrown error, caught at the `catch` boundary. -/
inductive FetchOutcome (α : Type)
  | success (value : α)
  | failure (kind : ErrorKind)
  deriving DecidableEq

/-- The error messages of `fetchWeatherData` (WeatherDashboard.tsx lines
96-103 and 117). -/
def currentErrorMessage : ErrorKind → String
  | ErrorKind.invalidCredentials => "Invalid API key. Please check your configuration."
  | ErrorKind.stationNotFound => "Weather station not found. Please check your station ID."
  | ErrorKind.httpError status => "HTTP error! status: " ++ toString status
  | ErrorKind.noData => "No weather data available for this station"

/-- The error messages of `fetchHistoryData` (WeatherHistory lines 96-103
and 115); they differ from the dashboard's only in the `NoData` text. -/
def historyErrorMessage : ErrorKind → String
  | ErrorKind.invalidCredentials => "Invalid API key. Please check your configuration."
  | ErrorKind.stationNotFound => "Weather station not found. Please check your station ID."
  | ErrorKind.httpError status => "HTTP error! status: " ++ toString status
  | ErrorKind.noData => "No historical data available for this station"

/-- A toast notification as issued by `useToast`. -/
structure Toast where
  title : String
  description : String
  destructive : Bool
  duration : Nat
  deriving DecidableEq

/-! ### Current-conditions fetcher (WeatherDashboard.tsx) -/

/-- The `metric` (and `imperial`) sub-record of a current observation
(WeatherDashboard.tsx lines 34-57). -/
structure MetricObservation where
  temp : ℚ
  heatIndex : ℚ
  dewpt : ℚ
  windChill : ℚ
  windSpeed : ℚ
  windGust : ℚ
  pressure : ℚ
  precipRate : ℚ
  precipTotal : ℚ
  elev : ℚ
  deriving DecidableEq

/-- `WeatherData` (WeatherDashboard.tsx lines 22-58). -/
structure WeatherData where
  stationID : String
  obsTimeUtc : String
  obsTimeLocal : String
  neighborhood : String
  country : String
  solarRadiation : ℚ
  lon : ℚ
  lat : ℚ
  uv : ℚ
  winddir : ℚ
  humidity : ℚ
  imperial : MetricObservation
  metric : MetricObservation
  deriving DecidableEq

/-- The `WeatherDashboard` component state: `weatherData`, `loading`,
`error`, `lastUpdate` and `showHistory` (lines 70-74).  Timestamps are
abstract `Nat` tokens. -/
structure DashboardState where
  weatherData : Option WeatherData
  loading : Bool
  error : Option String
  lastUpdate : Option Nat
  showHistory : Bool
  deriving DecidableEq

/-- The initial `useState` values of `WeatherDashboard` (lines 70-74). -/
def initialDashboardState : DashboardState :=
  { weatherData := none, loading := true, error := none, lastUpdate := none,
    showHistory := false }

/-- The branch structure of `fetchWeatherData`'s `try` body after the
`await fetch` (lines 96-118): classify the status, then take the first
element of `observations` or throw `NoData`. -/
def currentOutcome (resp : HttpResponse (List WeatherData)) :
    FetchOutcome WeatherData :=
  if !responseOk resp.status then
    if resp.status == 401 then FetchOutcome.failure ErrorKind.invalidCredentials
    else if resp.status == 404 then FetchOutcome.failure ErrorKind.stationNotFound
    else FetchOutcome.failure (ErrorKind.httpError resp.status)
  else
    match resp.body with
    | x :: _ => FetchOutcome.success x
    | [] => FetchOutcome.failure ErrorKind.noData

/-- The synchronous prefix of `fetchWeatherData` before the `await`
(lines 90-91): `setLoading(true); setError(null)`. -/
def startFetch (st : DashboardState) : DashboardState :=
  { st with loading := true, error := none }

/-- The continuation of `fetchWeatherData` after its response arrives
(lines 96-130): apply the outcome to whatever state the component is in at
that moment, and end with `setLoading(false)`.  On failure neither
`weatherData` nor `lastUpdate` is written. -/
def settleCurrent (st : DashboardState) (resp : HttpResponse (List WeatherData))
    (now : Nat) : DashboardState :=
  match currentOutcome resp with
  | FetchOutcome.success x =>
      { st with weatherData := some x, lastUpdate := some now, loading := false }
  | FetchOutcome.failure k =>
      { st with error := some (currentErrorMessage k), loading := false }

/-- The toast issued when the response of `fetchWeatherData` is processed
(lines 111-115 and 122-127). -/
def currentToast (resp : HttpResponse (List WeatherData)) : Toast :=
  match currentOutcome resp with
  | FetchOutcome.success _ =>
      { title := "Weather Updated", description := "Weather data refreshed successfully",
        destructive := false, duration := 3000 }
  | FetchOutcome.failure k =>
      { title := "Error", description := currentErrorMessage k,
        destructive := true, duration := 5000 }

/-- One complete, non-overlapped run of `fetchWeatherData` (lines 88-131):
the synchronous prefix followed immediately by the settlement of its own
response. -/
def fetchWeatherStep (st : DashboardState) (resp : HttpResponse (List WeatherData))
    (now : Nat) : DashboardState :=
  settleCurrent (startFetch st) resp now

/-- What the `WeatherDashboard` render body shows (lines 170-420). -/
inductive DashboardView
  | loadingScreen
  | errorScreen (message : String)
  | nullView
  | historyScreen
  | dataScreen (d : WeatherData)
  deriving DecidableEq

/-- The render decisions of `WeatherDashboard` (lines 170-216):
`loading && !weatherData` → spinner; `error && !weatherData` → error card;
`!weatherData` → null; `showHistory` → history component; else the data. -/
def renderDashboard (st : DashboardState) : DashboardView :=
  if st.loading && st.weatherData.isNone then DashboardView.loadingScreen
  else if st.error.isSome && st.weatherData.isNone then
    DashboardView.errorScreen (st.error.getD "")
  else
    match st.weatherData with
    | none => DashboardView.nullView
    | some d =>
        if st.showHistory then DashboardView.historyScreen
        else DashboardView.dataScreen d

/-! ### History fetcher (WeatherHistory) -/

/-- The `metric` sub-record of a daily summary (WeatherHistory lines 34-58). -/
structure MetricSummary where
  tempHigh : ℚ
  tempLow : ℚ
  tempAvg : ℚ
  windspeedHigh : ℚ
  windspeedLow : ℚ
  windspeedAvg : ℚ
  windgustHigh : ℚ
  windgustLow : ℚ
  windgustAvg : ℚ
  dewptHigh : ℚ
  dewptLow : ℚ
  dewptAvg : ℚ
  windchillHigh : ℚ
  windchillLow : ℚ
  windchillAvg : ℚ
  heatindexHigh : ℚ
  heatindexLow : ℚ
  heatindexAvg : ℚ
  pressureMax : ℚ
  pressureMin : ℚ
  pressureTrend : ℚ
  precipRate : ℚ
  precipTotal : ℚ
  deriving DecidableEq

/-- `DailySummary` (WeatherHistory lines 19-59). -/
structure DailySummary where
  stationID : String
  tz : String
  obsTimeUtc : String
  obsTimeLocal : String
  epoch : ℤ
  lat : ℚ
  lon : ℚ
  solarRadiationHigh : ℚ
  uvHigh : ℚ
  winddirAvg : ℚ
  humidityHigh : ℚ
  humidityLow : ℚ
  humidityAvg : ℚ
  qcStatus : ℤ
  metric : MetricSummary
  deriving DecidableEq

/-- The `WeatherHistory` component state: `historyData`, `loading`,
`error` (lines 71-73). -/
structure HistoryState where
  historyData : List DailySummary
  loading : Bool
  error : Option String
  deriving DecidableEq

/-- The initial `useState` values of `WeatherHistory` (lines 71-73). -/
def initialHistoryState : HistoryState :=
  { historyData := [], loading := true, error := none }

/-- The branch structure of `fetchHistoryData`'s `try` body after the
`await fetch` (WeatherHistory lines 95-116): classify the status, then
reverse the summaries (`data.summaries.reverse()`, most recent first) or
throw `NoData` when the array is empty. -/
def historyOutcome (resp : HttpResponse (List DailySummary)) :
    FetchOutcome (List DailySummary) :=
  if !responseOk resp.status then
    if resp.status == 401 then FetchOutcome.failure ErrorKind.invalidCredentials
    else if resp.status == 404 then FetchOutcome.failure ErrorKind.stationNotFound
    else FetchOutcome.failure (ErrorKind.httpError resp.status)
  else
    if resp.body.length > 0 then FetchOutcome.success resp.body.reverse
    else FetchOutcome.failure ErrorKind.noData

/-- The synchronous prefix of `fetchHistoryData` before the `await`
(lines 89-90): `setLoading(true); setError(null)`. -/
def startHistoryFetch (st : HistoryState) : HistoryState :=
  { st with loading := true, error := none }

/-- The continuation of `fetchHistoryData` after its response arrives
(lines 95-128): apply the outcome and end with `setLoading(false)`.  On
failure `historyData` is not written. -/
def settleHistory (st : HistoryState) (resp : HttpResponse (List DailySummary)) :
    HistoryState :=
  match historyOutcome resp with
  | FetchOutcome.success l =>
      { st with historyData := l, loading := false }
  | FetchOutcome.failure k =>
      { st with error := some (historyErrorMessage k), loading := false }

/-- The toast issued when the response of `fetchHistoryData` is processed
(lines 109-113 and 120-125). -/
def historyToast (resp : HttpResponse (List DailySummary)) : Toast :=
  match historyOutcome resp with
  | FetchOutcome.success _ =>
      { title := "History Updated", description := "Weather history loaded successfully",
        destructive := false, duration := 3000 }
  | FetchOutcome.failure k =>
      { title := "Error", description := historyErrorMessage k,
        destructive := true, duration := 5000 }

/-- One complete, non-overlapped run of `fetchHistoryData` (lines 87-129). -/
def fetchHistoryStep (st : HistoryState) (resp : HttpResponse (List DailySummary)) :
    HistoryState :=
  settleHistory (startHistoryFetch st) resp

/-- What the `WeatherHistory` render body shows (lines 154-347). -/
inductive HistoryView
  | loadingScreen
  | errorScreen (message : String)
  | dataScreen (days : List DailySummary)
  deriving DecidableEq

/-- The render decisions of `WeatherHistory` (lines 154-188): `loading` →
spinner; `error` → error card (with no check that prior data exists); else
the list of day cards. -/
def renderHistory (st : HistoryState) : HistoryView :=
  if st.loading then HistoryView.loadingScreen
  else
    match st.error with
    | some msg => HistoryView.errorScreen msg
    | none => HistoryView.dataScreen st.historyData

/-! ### Render-time number formatting (WeatherDashboard.tsx lines 154-168,
WeatherHistory lines 144-147) -/

/-- `formatTemperature`, `formatPressure`, `formatWindSpeed`, `formatTemp`,
`formatWind`: `Math.round` applied only when rendering. -/
def formatTemperature (temp : ℚ) : ℤ := jsRound temp

/-! ### Concrete sample data used by witnesses and counterexamples -/

/-- A metric block with every field equal to `v`. -/
def mkMetricObservation (v : ℚ) : MetricObservation :=
  { temp := v, heatIndex := v, dewpt := v, windChill := v, windSpeed := v,
    windGust := v, pressure := v, precipRate := v, precipTotal := v, elev := v }

/-- A concrete current observation. -/
def mkObservation (station : String) (v : ℚ) : WeatherData :=
  { stationID := station, obsTimeUtc := "2024-01-01T00:00:00Z",
    obsTimeLocal := "2024-01-01 01:00:00", neighborhood := "Nyhagen",
    country := "SE", solarRadiation := v, lon := v, lat := v, uv := v,
    winddir := v, humidity := v, imperial := mkMetricObservation v,
    metric := mkMetricObservation v }

/-- A summary metric block with every field equal to `v`. -/
def mkMetricSummary (v : ℚ) : MetricSummary :=
  { tempHigh := v, tempLow := v, tempAvg := v, windspeedHigh := v,
    windspeedLow := v, windspeedAvg := v, windgustHigh := v, windgustLow := v,
    windgustAvg := v, dewptHigh := v, dewptLow := v, dewptAvg := v,
    windchillHigh := v, windchillLow := v, windchillAvg := v,
    heatindexHigh := v, heatindexLow := v, heatindexAvg := v,
    pressureMax := v, pressureMin := v, pressureTrend := v,
    precipRate := v, precipTotal := v }

/-- A concrete daily summary with the given `epoch`. -/
def mkSummary (e : ℤ) : DailySummary :=
  { stationID := "ISTA1", tz := "Europe/Stockholm",
    obsTimeUtc := "2024-01-01T00:00:00Z", obsTimeLocal := "2024-01-01 01:00:00",
    epoch := e, lat := 0, lon := 0, solarRadiationHigh := 0, uvHigh := 0,
    winddirAvg := 0, humidityHigh := 0, humidityLow := 0, humidityAvg := 0,
    qcStatus := 1, metric := mkMetricSummary 0 }

/-- A concrete valid configuration. -/
def sampleConfig : WeatherConfigData :=
  { apiKey := "key123", stationId := "ISTA1", rememberMe := true }

/-- The parse function used by the startup-load witness: only the string
"good" parses. -/
def sampleParse : String → Option WeatherConfigData :=
  fun s => if s = "good" then some sampleConfig else none

/-! ## Claims -/

/-- C3: the wind-direction lookup divides the circle into 16 sectors of
22.5°, rounds to the nearest sector and wraps modulo 16: 0° ↦ "N",
90° ↦ "E", 360° wraps to "N", and 11° rounds down to "N". -/
theorem c3_wind_direction_values :
    getWindDirection 0 = some "N" ∧ getWindDirection 90 = some "E" ∧
    getWindDirection 360 = some "N" ∧ getWindDirection 11 = some "N" := by
  have h0 : jsRound (0 / 22.5) = 0 := by norm_num [jsRound]
  have h90 : jsRound (90 / 22.5) = 4 := by norm_num [jsRound]
  have h360 : jsRound (360 / 22.5) = 16 := by norm_num [jsRound]
  have h11 : jsRound (11 / 22.5) = 0 := by norm_num [jsRound]
  refine ⟨?_, ?_, ?_, ?_⟩
  · rw [getWindDirection, windIndex, h0]; rfl
  · rw [getWindDirection, windIndex, h90]; rfl
  · rw [getWindDirection, windIndex, h360]; rfl
  · rw [getWindDirection, windIndex, h11]; rfl

/-- C10: for every `degrees` in `[0, 360]` the index
`Math.round(degrees / 22.5) % 16` lies in `[0, 15]`, so the lookup always
returns one of the 16 compass strings and the out-of-bounds branch of the
embedded indexing is unreachable. -/
theorem c10_wind_lookup_in_bounds (d : ℚ) (h0 : 0 ≤ d) (h1 : d ≤ 360) :
    0 ≤ windIndex d ∧ windIndex d < 16 ∧
    ∃ name, getWindDirection d = some name := by
  have hq1 : d / 22.5 ≤ 16 := by
    rw [div_le_iff₀ (by norm_num : (0:ℚ) < 22.5)]
    linarith
  have hr0 : 0 ≤ jsRound (d / 22.5) := by
    rw [jsRound]
    refine Int.floor_nonneg.mpr ?_
    have hq0 : 0 ≤ d / 22.5 := by positivity
    linarith
  have hr1 : jsRound (d / 22.5) ≤ 16 := by
    rw [jsRound]
    have h2 := Int.floor_le_floor (by linarith : d / 22.5 + 1/2 ≤ (33/2 : ℚ))
    have h3 : ⌊(33/2 : ℚ)⌋ = 16 := by norm_num
    omega
  have hmod : windIndex d = jsRound (d / 22.5) % 16 := by
    rw [windIndex, jsMod]
    exact Int.tmod_eq_emod hr0 (by norm_num)
  have hi0 : 0 ≤ windIndex d := by
    rw [hmod]; exact Int.emod_nonneg _ (by norm_num)
  have hi1 : windIndex d < 16 := by
    rw [hmod]; exact Int.emod_lt_of_pos _ (by norm_num)
  refine ⟨hi0, hi1, ?_⟩
  rw [getWindDirection, jsIndex, if_pos hi0]
  have hlen : (windIndex d).toNat < directions.length := by
    have h4 : (windIndex d).toNat < 16 := by omega
    simpa [directions] using h4
  exact ⟨_, List.get?_eq_get hlen⟩

/-- Witness for C10 at `degrees = 90`. -/
theorem c10_wind_lookup_in_bounds_witness :
    0 ≤ windIndex 90 ∧ windIndex 90 < 16 ∧
    ∃ name, getWindDirection 90 = some name :=
  c10_wind_lookup_in_bounds 90 (by norm_num) (by norm_num)

/-- C5: for a configuration whose `apiKey` and `stationId` are non-blank,
`handleSave` persists the configuration verbatim iff `rememberMe` is true,
deletes any persisted copy when `rememberMe` is false, always hands the
configuration to `onConfigSave` (which synchronously updates the in-memory
current configuration and leaves the settings screen), and reports
success. -/
theorem c5_save_persists_iff_remember (config : WeatherConfigData)
    (storage : Option WeatherConfigData) (app : AppState)
    (hA : jsTrim config.apiKey ≠ "") (hS : jsTrim config.stationId ≠ "") :
    ((handleSave config storage).storage = some config ↔ config.rememberMe = true) ∧
    (config.rememberMe = false → (handleSave config storage).storage = none) ∧
    (handleSave config storage).notified = some config ∧
    (handleSave config storage).toast = SaveToast.configurationSaved ∧
    (handleConfigSave app config).config = some config ∧
    (handleConfigSave app config).showConfig = false := by
  rw [handleSave, if_neg hA, if_neg hS]
  cases hrm : config.rememberMe <;> simp [handleConfigSave]

/-- Witness for C5 with both `rememberMe` values at a concrete
configuration. -/
theorem c5_save_persists_iff_remember_witness :
    ((handleSave sampleConfig none).storage = some sampleConfig ↔
      sampleConfig.rememberMe = true) ∧
    ({ sampleConfig with rememberMe := false }.rememberMe = false →
      (handleSave { sampleConfig with rememberMe := false } none).storage = none) ∧
    (handleSave sampleConfig none).notified = some sampleConfig := by
  have h1 := c5_save_persists_iff_remember sampleConfig none
    { config := none, showConfig := true, isLoading := false, storage := none }
    (by decide) (by decide)
  have h2 := c5_save_persists_iff_remember { sampleConfig with rememberMe := false } none
    { config := none, showConfig := true, isLoading := false, storage := none }
    (by decide) (by decide)
  exact ⟨h1.1, fun _ => h2.2.1 rfl, h1.2.2.1⟩

/-- C6: `handleSave` with a blank `apiKey` or `stationId` is rejected with
a user-visible validation toast: the persisted configuration is untouched,
`onConfigSave` is never called (so the in-memory configuration is
unchanged), and no exception escapes. -/
theorem c6_save_rejects_blank (config : WeatherConfigData)
    (storage : Option WeatherConfigData)
    (h : jsTrim config.apiKey = "" ∨ jsTrim config.stationId = "") :
    (handleSave config storage).storage = storage ∧
    (handleSave config storage).notified = none ∧
    ((handleSave config storage).toast = SaveToast.missingApiKey ∨
      (handleSave config storage).toast = SaveToast.missingStationId) := by
  rw [handleSave]
  by_cases hA : jsTrim config.apiKey = ""
  · rw [if_pos hA]
    exact ⟨rfl, rfl, Or.inl rfl⟩
  · have hS : jsTrim config.stationId = "" := h.resolve_left hA
    rw [if_neg hA, if_pos hS]
    exact ⟨rfl, rfl, Or.inr rfl⟩

/-- Witness for C6 at a whitespace-only `apiKey` and a pre-existing
persisted configuration. -/
theorem c6_save_rejects_blank_witness :
    (handleSave { apiKey := "   ", stationId := "ISTA1", rememberMe := true }
        (some sampleConfig)).storage = some sampleConfig ∧
    (handleSave { apiKey := "   ", stationId := "ISTA1", rememberMe := true }
        (some sampleConfig)).notified = none ∧
    ((handleSave { apiKey := "   ", stationId := "ISTA1", rememberMe := true }
        (some sampleConfig)).toast = SaveToast.missingApiKey ∨
      (handleSave { apiKey := "   ", stationId := "ISTA1", rememberMe := true }
        (some sampleConfig)).toast = SaveToast.missingStationId) :=
  c6_save_rejects_blank _ _ (Or.inl (by decide))

/-- C9: on startup, an absent `weatherConfig` key yields the first-run
configuring state; a stored value that fails to parse is deleted and
treated as absent, with the parse error not propagated; a stored value
that parses becomes the current configuration and the dashboard is
rendered. -/
theorem c9_startup_load (jsonParse : String → Option WeatherConfigData)
    (s : String) (c : WeatherConfigData) :
    ((loadSavedConfig none jsonParse).config = none ∧
      (loadSavedConfig none jsonParse).showConfig = true ∧
      (loadSavedConfig none jsonParse).storage = none ∧
      renderApp (loadSavedConfig none jsonParse) = AppView.configScreen none) ∧
    (jsonParse s = none →
      (loadSavedConfig (some s) jsonParse).config = none ∧
      (loadSavedConfig (some s) jsonParse).showConfig = true ∧
      (loadSavedConfig (some s) jsonParse).storage = none ∧
      renderApp (loadSavedConfig (some s) jsonParse) = AppView.configScreen none) ∧
    (jsonParse s = some c →
      (loadSavedConfig (some s) jsonParse).config = some c ∧
      (loadSavedConfig (some s) jsonParse).showConfig = false ∧
      (loadSavedConfig (some s) jsonParse).storage = some s ∧
      renderApp (loadSavedConfig (some s) jsonParse) = AppView.dashboardScreen c) := by
  refine ⟨?_, ?_, ?_⟩
  · exact ⟨rfl, rfl, rfl, rfl⟩
  · intro hp
    simp [loadSavedConfig, hp, renderApp]
  · intro hp
    simp [loadSavedConfig, hp, renderApp]

/-- Witness for C9: `sampleParse` fails on "bad" (deleted, configuring)
and succeeds on "good" (dashboard shown). -/
theorem c9_startup_load_witness :
    ((loadSavedConfig (some "bad") sampleParse).config = none ∧
      (loadSavedConfig (some "bad") sampleParse).storage = none ∧
      renderApp (loadSavedConfig (some "bad") sampleParse) = AppView.configScreen none) ∧
    ((loadSavedConfig (some "good") sampleParse).config = some sampleConfig ∧
      renderApp (loadSavedConfig (some "good") sampleParse) =
        AppView.dashboardScreen sampleConfig) := by
  have hbad := (c9_startup_load sampleParse "bad" sampleConfig).2.1 (by decide)
  have hgood := (c9_startup_load sampleParse "good" sampleConfig).2.2 (by decide)
  exact ⟨⟨hbad.1, hbad.2.2.1, hbad.2.2.2⟩, ⟨hgood.1, hgood.2.2.2⟩⟩

/-- C7: for both fetchers a 401 yields `InvalidCredentials`, a 404 yields
`StationNotFound`, and any other non-2xx status yields `HttpError(status)`;
every failure is caught at the fetch boundary and surfaces only in the
fetcher's `error` state, leaving the data untouched. -/
theorem c7_http_error_mapping (status : Nat) (obsBody : List WeatherData)
    (histBody : List DailySummary) (st : DashboardState) (hst : HistoryState)
    (now : Nat) (hnot : responseOk status = false) :
    (status = 401 →
      currentOutcome ⟨status, obsBody⟩ =
        FetchOutcome.failure ErrorKind.invalidCredentials ∧
      historyOutcome ⟨status, histBody⟩ =
        FetchOutcome.failure ErrorKind.invalidCredentials) ∧
    (status = 404 →
      currentOutcome ⟨status, obsBody⟩ =
        FetchOutcome.failure ErrorKind.stationNotFound ∧
      historyOutcome ⟨status, histBody⟩ =
        FetchOutcome.failure ErrorKind.stationNotFound) ∧
    (status ≠ 401 → status ≠ 404 →
      currentOutcome ⟨status, obsBody⟩ =
        FetchOutcome.failure (ErrorKind.httpError status) ∧
      historyOutcome ⟨status, histBody⟩ =
        FetchOutcome.failure (ErrorKind.httpError status)) ∧
    (∀ k, currentOutcome ⟨status, obsBody⟩ = FetchOutcome.failure k →
      (fetchWeatherStep st ⟨status, obsBody⟩ now).error =
        some (currentErrorMessage k) ∧
      (fetchWeatherStep st ⟨status, obsBody⟩ now).weatherData = st.weatherData) ∧
    (∀ k, historyOutcome ⟨status, histBody⟩ = FetchOutcome.failure k →
      (fetchHistoryStep hst ⟨status, histBody⟩).error =
        some (historyErrorMessage k) ∧
      (fetchHistoryStep hst ⟨status, histBody⟩).historyData = hst.historyData) := by
  refine ⟨?_, ?_, ?_, ?_, ?_⟩
  · intro h
    subst h
    exact ⟨by simp [currentOutcome, hnot], by simp [historyOutcome, hnot]⟩
  · intro h
    subst h
    exact ⟨by simp [currentOutcome, hnot], by simp [historyOutcome, hnot]⟩
  · intro h1 h4
    exact ⟨by simp [currentOutcome, hnot, h1, h4], by simp [historyOutcome, hnot, h1, h4]⟩
  · intro k hk
    constructor <;> simp [fetchWeatherStep, settleCurrent, startFetch, hk]
  · intro k hk
    constructor <;> simp [fetchHistoryStep, settleHistory, startHistoryFetch, hk]

/-- Witness for C7 at statuses 401, 404 and 500 against both fetchers. -/
theorem c7_http_error_mapping_witness :
    currentOutcome ⟨401, []⟩ = FetchOutcome.failure ErrorKind.invalidCredentials ∧
    historyOutcome ⟨401, []⟩ = FetchOutcome.failure ErrorKind.invalidCredentials ∧
    currentOutcome ⟨404, []⟩ = FetchOutcome.failure ErrorKind.stationNotFound ∧
    historyOutcome ⟨404, []⟩ = FetchOutcome.failure ErrorKind.stationNotFound ∧
    currentOutcome ⟨500, []⟩ = FetchOutcome.failure (ErrorKind.httpError 500) ∧
    (fetchWeatherStep initialDashboardState ⟨500, []⟩ 0).error =
      some (currentErrorMessage (ErrorKind.httpError 500)) ∧
    (fetchHistoryStep initialHistoryState ⟨500, []⟩).historyData = [] := by
  have h401 := c7_http_error_mapping 401 [] [] initialDashboardState
    initialHistoryState 0 (by decide)
  have h404 := c7_http_error_mapping 404 [] [] initialDashboardState
    initialHistoryState 0 (by decide)
  have h500 := c7_http_error_mapping 500 [] [] initialDashboardState
    initialHistoryState 0 (by decide)
  have hp401 := h401.1 rfl
  have hp404 := h404.2.1 rfl
  have hp500 := (h500.2.2.1 (by decide) (by decide))
  refine ⟨hp401.1, hp401.2, hp404.1, hp404.2, hp500.1, ?_, ?_⟩
  · exact (h500.2.2.2.1 (ErrorKind.httpError 500) hp500.1).1
  · exact (h500.2.2.2.2 (ErrorKind.httpError 500) hp500.2).2

/-- C8: on a 2xx response the current-conditions fetcher yields `NoData`
when `observations` is empty, and otherwise stores the first observation
wholesale (every field passed through unmodified), clears the error and
records the last-updated timestamp. -/
theorem c8_first_observation (st : DashboardState) (status : Nat) (now : Nat)
    (x : WeatherData) (rest : List WeatherData) (hok : responseOk status = true) :
    (currentOutcome ⟨status, []⟩ = FetchOutcome.failure ErrorKind.noData ∧
      (fetchWeatherStep st ⟨status, []⟩ now).error =
        some (currentErrorMessage ErrorKind.noData) ∧
      (fetchWeatherStep st ⟨status, []⟩ now).weatherData = st.weatherData) ∧
    (currentOutcome ⟨status, x :: rest⟩ = FetchOutcome.success x ∧
      (fetchWeatherStep st ⟨status, x :: rest⟩ now).weatherData = some x ∧
      (fetchWeatherStep st ⟨status, x :: rest⟩ now).error = none ∧
      (fetchWeatherStep st ⟨status, x :: rest⟩ now).lastUpdate = some now) := by
  have hempty : currentOutcome ⟨status, ([] : List WeatherData)⟩ =
      FetchOutcome.failure ErrorKind.noData := by
    simp [currentOutcome, hok]
  have hcons : currentOutcome ⟨status, x :: rest⟩ = FetchOutcome.success x := by
    simp [currentOutcome, hok]
  refine ⟨⟨hempty, ?_, ?_⟩, hcons, ?_, ?_, ?_⟩ <;>
    simp [fetchWeatherStep, settleCurrent, startFetch, hempty, hcons]

/-- Witness for C8 at a 200 response carrying one concrete observation. -/
theorem c8_first_observation_witness :
    currentOutcome ⟨200, []⟩ = FetchOutcome.failure ErrorKind.noData ∧
    currentOutcome ⟨200, [mkObservation "IBORLN23" 5]⟩ =
      FetchOutcome.success (mkObservation "IBORLN23" 5) ∧
    (fetchWeatherStep initialDashboardState ⟨200, [mkObservation "IBORLN23" 5]⟩
        7).weatherData = some (mkObservation "IBORLN23" 5) ∧
    (fetchWeatherStep initialDashboardState ⟨200, [mkObservation "IBORLN23" 5]⟩
        7).lastUpdate = some 7 := by
  have h := c8_first_observation initialDashboardState 200 7
    (mkObservation "IBORLN23" 5) [] (by decide)
  exact ⟨h.1.1, h.2.1, h.2.2.1, h.2.2.2.2⟩

/-- In a list whose epochs are strictly increasing, the last element has
the greatest epoch. -/
theorem pairwise_epoch_le_getLast (s : List DailySummary) :
    ∀ (h : s ≠ []), List.Pairwise (fun a b => a.epoch < b.epoch) s →
      ∀ x ∈ s, x.epoch ≤ (s.getLast h).epoch := by
  induction s with
  | nil => intro h; exact absurd rfl h
  | cons a t ih =>
    intro h hp x hx
    cases t with
    | nil =>
      have hx2 : x = a := by simpa using hx
      subst hx2
      simp [List.getLast]
    | cons b t2 =>
      have hlast : (a :: b :: t2).getLast h =
          (b :: t2).getLast (List.cons_ne_nil b t2) := by
        simp [List.getLast_cons]
      rcases List.mem_cons.mp hx with hxa | hxt
      · subst hxa
        have hmem : (b :: t2).getLast (List.cons_ne_nil b t2) ∈ b :: t2 :=
          List.getLast_mem _
        have hlt := (List.pairwise_cons.mp hp).1 _ hmem
        rw [hlast]
        exact le_of_lt hlt
      · have hp2 := (List.pairwise_cons.mp hp).2
        rw [hlast]
        exact ih (List.cons_ne_nil b t2) hp2 x hxt

/-- C4: a successful history fetch stores the summaries reversed, so index
0 is the most recent day; for an oldest-first input with strictly
increasing epochs, the head of the stored list has the greatest epoch. -/
theorem c4_history_reversed (st : HistoryState) (status : Nat)
    (s : List DailySummary) (hok : responseOk status = true) (hne : s ≠ [])
    (hinc : List.Pairwise (fun a b => a.epoch < b.epoch) s) :
    (fetchHistoryStep st ⟨status, s⟩).historyData = s.reverse ∧
    ∃ m, (fetchHistoryStep st ⟨status, s⟩).historyData.head? = some m ∧
      ∀ x ∈ s, x.epoch ≤ m.epoch := by
  have hlen : 0 < s.length := List.length_pos.mpr hne
  have hout : historyOutcome ⟨status, s⟩ = FetchOutcome.success s.reverse := by
    simp [historyOutcome, hok, hlen]
  have hdata : (fetchHistoryStep st ⟨status, s⟩).historyData = s.reverse := by
    simp [fetchHistoryStep, settleHistory, startHistoryFetch, hout]
  refine ⟨hdata, s.getLast hne, ?_, pairwise_epoch_le_getLast s hne hinc⟩
  rw [hdata, List.head?_reverse, List.getLast?_eq_getLast_of_ne_nil hne]

/-- Witness for C4 on a concrete strictly increasing 3-day history. -/
theorem c4_history_reversed_witness :
    (fetchHistoryStep initialHistoryState
        ⟨200, [mkSummary 10, mkSummary 20, mkSummary 30]⟩).historyData =
      [mkSummary 10, mkSummary 20, mkSummary 30].reverse ∧
    ∃ m, (fetchHistoryStep initialHistoryState
        ⟨200, [mkSummary 10, mkSummary 20, mkSummary 30]⟩).historyData.head? =
          some m ∧
      ∀ x ∈ [mkSummary 10, mkSummary 20, mkSummary 30], x.epoch ≤ m.epoch :=
  c4_history_reversed initialHistoryState 200
    [mkSummary 10, mkSummary 20, mkSummary 30] (by decide)
    (List.cons_ne_nil _ _) (by simp [List.pairwise_cons, mkSummary])

/-- A history slice that already holds one fetched day. -/
def histStateWithData : HistoryState :=
  { historyData := [mkSummary 100], loading := false, error := none }

/-- A dashboard slice that already holds a fetched observation. -/
def dashStateWithData : DashboardState :=
  { weatherData := some (mkObservation "IBORLN23" 5), loading := false,
    error := none, lastUpdate := some 5, showHistory := false }

/-- C1 counterexample: a failed history refresh (HTTP 500) while a prior
day is held keeps the data in state, yet the history view switches from
the data cards to the error placeholder — the displayed data does change,
refuting the claim for the history fetcher. -/
theorem c1_counterexample_history_error_screen :
    (fetchHistoryStep histStateWithData ⟨500, []⟩).historyData =
      histStateWithData.historyData ∧
    renderHistory histStateWithData =
      HistoryView.dataScreen [mkSummary 100] ∧
    renderHistory (fetchHistoryStep histStateWithData ⟨500, []⟩) =
      HistoryView.errorScreen (historyErrorMessage (ErrorKind.httpError 500)) ∧
    renderHistory (fetchHistoryStep histStateWithData ⟨500, []⟩) ≠
      renderHistory histStateWithData := by
  refine ⟨rfl, rfl, rfl, ?_⟩
  intro h
  exact HistoryView.noConfusion h

/-- C1 amended: on a failed refresh neither fetcher clears previously
fetched data from state; the failure surfaces in the `error` field and a
destructive toast.  The dashboard keeps displaying the prior observation,
while the history view shows its error placeholder whenever `error` is
set, even though the prior data is still held. -/
theorem c1_amended_failure_preserves_data (st : DashboardState)
    (hst : HistoryState) (respC : HttpResponse (List WeatherData))
    (respH : HttpResponse (List DailySummary)) (now : Nat) (d : WeatherData)
    (kc kh : ErrorKind) (hd : st.weatherData = some d)
    (hsh : st.showHistory = false)
    (hfc : currentOutcome respC = FetchOutcome.failure kc)
    (hfh : historyOutcome respH = FetchOutcome.failure kh) :
    (fetchWeatherStep st respC now).weatherData = some d ∧
    (fetchWeatherStep st respC now).error = some (currentErrorMessage kc) ∧
    (fetchWeatherStep st respC now).lastUpdate = st.lastUpdate ∧
    renderDashboard (fetchWeatherStep st respC now) = DashboardView.dataScreen d ∧
    (currentToast respC).destructive = true ∧
    (fetchHistoryStep hst respH).historyData = hst.historyData ∧
    (fetchHistoryStep hst respH).error = some (historyErrorMessage kh) ∧
    renderHistory (fetchHistoryStep hst respH) =
      HistoryView.errorScreen (historyErrorMessage kh) ∧
    (historyToast respH).destructive = true := by
  refine ⟨?_, ?_, ?_, ?_, ?_, ?_, ?_, ?_, ?_⟩ <;>
    simp [fetchWeatherStep, settleCurrent, startFetch, fetchHistoryStep,
      settleHistory, startHistoryFetch, currentToast, historyToast,
      renderDashboard, renderHistory, hfc, hfh, hd, hsh]

/-- Witness for C1 (amended) at a concrete failed refresh over held data. -/
theorem c1_amended_failure_preserves_data_witness :
    (fetchWeatherStep dashStateWithData ⟨500, []⟩ 9).weatherData =
      some (mkObservation "IBORLN23" 5) ∧
    renderDashboard (fetchWeatherStep dashStateWithData ⟨500, []⟩ 9) =
      DashboardView.dataScreen (mkObservation "IBORLN23" 5) ∧
    (fetchHistoryStep histStateWithData ⟨500, []⟩).historyData =
      histStateWithData.historyData := by
  have h := c1_amended_failure_preserves_data dashStateWithData
    histStateWithData ⟨500, []⟩ ⟨500, []⟩ 9 (mkObservation "IBORLN23" 5)
    (ErrorKind.httpError 500) (ErrorKind.httpError 500) rfl rfl rfl rfl
  exact ⟨h.1, h.2.2.2.1, h.2.2.2.2.2.1⟩

/-- The final dashboard state after two overlapped `fetchWeatherData`
calls whose responses settle out of initiation order: the first-initiated
request (observation "ISTA-A") completes after the second-initiated one
(observation "ISTA-B"). -/
def overlappedRun : DashboardState :=
  settleCurrent
    (settleCurrent (startFetch (startFetch initialDashboardState))
      ⟨200, [mkObservation "ISTA-B" 2]⟩ 2)
    ⟨200, [mkObservation "ISTA-A" 1]⟩ 3

/-- C2 counterexample: with no request-sequence guard in the code, the
superseded first-initiated request's response is applied rather than
discarded, overwriting the most recently initiated request's result. -/
theorem c2_counterexample_stale_overwrite :
    overlappedRun.weatherData = some (mkObservation "ISTA-A" 1) ∧
    mkObservation "ISTA-A" 1 ≠ mkObservation "ISTA-B" 2 := by
  refine ⟨rfl, ?_⟩
  intro h
  have h2 : ("ISTA-A" : String) = "ISTA-B" := by
    simpa [mkObservation] using congrArg WeatherData.stationID h
  exact absurd h2 (by decide)

/-- C2 amended: responses are applied unconditionally in completion order
(last-completed-wins): whatever state a fetcher is in when a successful
response settles — including a state already written by a later-initiated
request — the settling response overwrites the slice. -/
theorem c2_amended_last_completed_wins (st : DashboardState) (status : Nat)
    (now : Nat) (x : WeatherData) (rest : List WeatherData)
    (hok : responseOk status = true) (hst : HistoryState) (statusH : Nat)
    (bodyH : List DailySummary) (hokH : responseOk statusH = true)
    (hneH : bodyH ≠ []) :
    (settleCurrent st ⟨status, x :: rest⟩ now).weatherData = some x ∧
    (settleCurrent st ⟨status, x :: rest⟩ now).lastUpdate = some now ∧
    (settleHistory hst ⟨statusH, bodyH⟩).historyData = bodyH.reverse := by
  have hc : currentOutcome ⟨status, x :: rest⟩ = FetchOutcome.success x := by
    simp [currentOutcome, hok]
  have hh : historyOutcome ⟨statusH, bodyH⟩ =
      FetchOutcome.success bodyH.reverse := by
    simp [historyOutcome, hokH, List.length_pos.mpr hneH]
  refine ⟨?_, ?_, ?_⟩ <;> simp [settleCurrent, settleHistory, hc, hh]

/-- Witness for C2 (amended): the second settlement of `overlappedRun`
overwrites the slice with the earlier-initiated response. -/
theorem c2_amended_last_completed_wins_witness :
    overlappedRun.weatherData = some (mkObservation "ISTA-A" 1) ∧
    overlappedRun.lastUpdate = some 3 ∧
    (settleHistory histStateWithData ⟨200, [mkSummary 1, mkSummary 2]⟩).historyData =
      [mkSummary 1, mkSummary 2].reverse := by
  have h := c2_amended_last_completed_wins
    (settleCurrent (startFetch (startFetch initialDashboardState))
      ⟨200, [mkObservation "ISTA-B" 2]⟩ 2)
    200 3 (mkObservation "ISTA-A" 1) [] (by decide) histStateWithData 200
    [mkSummary 1, mkSummary 2] (by decide) (List.cons_ne_nil _ _)
  exact ⟨h.1, h.2.1, h.2.2⟩

end Weather
